import Mathlib

/-!
Verification of the cnx status-bar text model.

This file shallowly embeds the core data model and operations of the
repository (src/text.rs, src/widgets/clock.rs, and the row-layout pass of
the bar scheduler) and proves the spec's claims about them.

Modelling conventions:
* Rust `f64` values are modelled as `ℚ`.  Every concrete value involved
  (hex byte / 256.0, pixel sizes, paddings) is exactly representable, so
  the rational model is exact for the properties proved here.
* Rust strings that are byte-sliced are modelled as `List Char`
  restricted to ASCII, where byte offsets and character offsets agree.
* Fallible operations return `Except`; an operation that can panic is
  wrapped in `Option`, with `none` modelling the panic.
-/

deriving instance DecidableEq for Except

namespace Cnx

/-- Kinds of `std::num::ParseIntError` reachable from `u8::from_str_radix`. -/
inductive ParseIntError where
  | empty
  | invalidDigit
  | posOverflow
  deriving DecidableEq, Repr

/-- `char::to_digit(16)`: hex value of a character, `none` when the
character is not a hexadecimal digit.  Written over `Char.toNat` so the
three ASCII ranges 0-9, a-f, A-F are explicit. -/
def hexVal? (c : Char) : Option Nat :=
  if 48 ≤ c.toNat ∧ c.toNat ≤ 57 then some (c.toNat - 48)
  else if 97 ≤ c.toNat ∧ c.toNat ≤ 102 then some (c.toNat - 87)
  else if 65 ≤ c.toNat ∧ c.toNat ≤ 70 then some (c.toNat - 55)
  else none

/-- The digit-accumulation loop of `u8::from_str_radix(s, 16)`: multiply
the accumulator by the radix and add each digit, failing with
`InvalidDigit` on a non-digit and `PosOverflow` past `u8::MAX`. -/
def hexDigitsToU8 (acc : Nat) : List Char → Except ParseIntError Nat
  | [] => .ok acc
  | c :: rest =>
    match hexVal? c with
    | none => .error .invalidDigit
    | some d =>
      if 255 < acc * 16 + d then .error .posOverflow
      else hexDigitsToU8 (acc * 16 + d) rest

/-- `u8::from_str_radix(s, 16)`.  Mirrors core: an empty string is
`Empty`; a lone sign is `InvalidDigit`; a leading `+` is stripped (a
leading `-` is not stripped for an unsigned target, so it fails as an
invalid digit inside the loop). -/
def u8FromStrRadix16 (s : List Char) : Except ParseIntError Nat :=
  if s = [] then .error .empty
  else if s = ['+'] ∨ s = ['-'] then .error .invalidDigit
  else
    match s with
    | '+' :: rest => hexDigitsToU8 0 rest
    | _ => hexDigitsToU8 0 s

/-- `Color`: three normalized channels, `f64` modelled as `ℚ`. -/
structure Color where
  red : ℚ
  green : ℚ
  blue : ℚ
  deriving DecidableEq, Repr

/-- `impl Default for Color`: black. -/
def Color.default : Color := { red := 0, green := 0, blue := 0 }

/-- `ParseColorError`: which channel failed, carrying the integer-parse
failure. -/
inductive ParseColorError where
  | red (e : ParseIntError)
  | green (e : ParseIntError)
  | blue (e : ParseIntError)
  deriving DecidableEq, Repr

/-- The byte slice `&s[a..b]` of an ASCII string. -/
def sliceChars (s : List Char) (a b : Nat) : List Char :=
  (s.drop a).take (b - a)

/-- `impl FromStr for Color`.  The struct-literal fields are evaluated in
order red, green, blue; each slices the input and then applies the `?`
operator, so a failed earlier channel returns before a later slice is
taken.  A slice `&s[a..b]` with `b` beyond the end of the string panics,
modelled as `none`. -/
def colorFromStr (s : List Char) : Option (Except ParseColorError Color) :=
  if s.length < 2 then none
  else
    match u8FromStrRadix16 (sliceChars s 0 2) with
    | .error e => some (.error (.red e))
    | .ok r =>
      if s.length < 4 then none
      else
        match u8FromStrRadix16 (sliceChars s 2 4) with
        | .error e => some (.error (.green e))
        | .ok g =>
          if s.length < 6 then none
          else
            match u8FromStrRadix16 (sliceChars s 4 6) with
            | .error e => some (.error (.blue e))
            | .ok b =>
              some (.ok { red := (r : ℚ) / 256, green := (g : ℚ) / 256,
                          blue := (b : ℚ) / 256 })

/-- Whether an `Except` holds a success value. -/
def exceptIsOk : Except ε α → Bool
  | .ok _ => true
  | .error _ => false

/-- A list of characters that is literally two hexadecimal digits (the
"valid 2-digit hexadecimal" of the spec). -/
def isValid2HexPair (l : List Char) : Prop :=
  l.length = 2 ∧ ∀ c ∈ l, (hexVal? c).isSome = true

instance (l : List Char) : Decidable (isValid2HexPair l) := by
  unfold isValid2HexPair; infer_instance

/-- `Padding`: four independent margins, pixels, `f64` as `ℚ`. -/
structure Padding where
  left : ℚ
  right : ℚ
  top : ℚ
  bottom : ℚ
  deriving DecidableEq, Repr

/-- `Padding::new`. -/
def Padding.new (left right top bottom : ℚ) : Padding :=
  { left := left, right := right, top := top, bottom := bottom }

/-- `Font`: a pango `FontDescription` built from a description string;
equality of font descriptions is modelled structurally on that string. -/
structure Font where
  desc : String
  deriving DecidableEq, Repr

/-- `Font::new`. -/
def Font.new (name : String) : Font := { desc := name }

/-- `Attributes`: font, foreground color, optional background color,
padding. -/
structure Attributes where
  font : Font
  fg_color : Color
  bg_color : Option Color
  padding : Padding
  deriving DecidableEq, Repr

/-- `Text`: a styled text request, not yet measured. -/
structure Text where
  attr : Attributes
  text : String
  stretch : Bool
  deriving DecidableEq, Repr

/-- `ComputedText`: a text request plus resolved geometry. -/
structure ComputedText where
  attr : Attributes
  text : String
  stretch : Bool
  x : ℚ
  y : ℚ
  width : ℚ
  height : ℚ
  deriving DecidableEq, Repr

/-- `LayoutCreationError`: pango layout creation failed for the surface. -/
inductive LayoutCreationError where
  | creationFailed
  deriving DecidableEq, Repr

/-- The external cairo surface / pango font engine, abstracted: whether a
pango layout can be created on the surface, and the content pixel size
`layout.get_pixel_size()` reports for a given string and font (an `i32`
pair, modelled as `ℤ`). -/
structure PangoEnv where
  layoutOk : Bool
  pixelSize : String → Font → Int × Int

/-- `Text::compute`: create a layout scoped to the call, set the string
and font, read back the content pixel size, add padding on both axes,
and return a ComputedText at origin carrying the request's fields. -/
def Text.compute (t : Text) (env : PangoEnv) : Except LayoutCreationError ComputedText :=
  if env.layoutOk then
    .ok { attr := t.attr, text := t.text, stretch := t.stretch,
          x := 0, y := 0,
          width := ((env.pixelSize t.text t.attr.font).1 : ℚ)
                     + t.attr.padding.left + t.attr.padding.right,
          height := ((env.pixelSize t.text t.attr.font).2 : ℚ)
                      + t.attr.padding.top + t.attr.padding.bottom }
  else .error .creationFailed

/-- `impl PartialEq<ComputedText> for Text`: compare attributes, literal
string and stretch flag, ignoring geometry. -/
def Text.eqComputed (t : Text) (other : ComputedText) : Bool :=
  decide (t.attr = other.attr) && decide (t.text = other.text)
    && decide (t.stretch = other.stretch)

/-- `pango::SCALE`. -/
def pangoSCALE : Int := 1024

/-- The Rust `as i32` cast from `f64`: truncation toward zero, saturating
at the `i32` bounds. -/
def f64AsI32 (q : ℚ) : Int :=
  if q < -(2 ^ 31 : Int) then -(2 ^ 31)
  else if ((2 ^ 31 : Int) - 1 : Int) < q then (2 ^ 31) - 1
  else if 0 ≤ q then ⌊q⌋ else ⌈q⌉

/-- One call made by `ComputedText::render` against the cairo context or
the pango layout, in call order. -/
inductive RenderOp where
  | setTextOp (s : String)
  | setFontDescriptionOp (f : Font)
  | translateOp (dx dy : ℚ)
  | setEllipsizeEndOp
  | setWidthOp (w : Int)
  | setHeightOp (h : Int)
  | setAlignmentCenterOp
  | setSourceRgbOp (r g b : ℚ)
  | rectangleOp (x y w h : ℚ)
  | fillOp
  | showLayoutOp (s : String)
  deriving DecidableEq, Repr

/-- `ComputedText::render`: the sequence of cairo/pango calls the
operation issues, in source order.  The ComputedText is taken immutably;
nothing is written back to it. -/
def ComputedText.render (c : ComputedText) (env : PangoEnv) :
    Except LayoutCreationError (List RenderOp) :=
  if env.layoutOk then
    .ok ([RenderOp.setTextOp c.text,
          RenderOp.setFontDescriptionOp c.attr.font,
          RenderOp.translateOp c.x c.y,
          RenderOp.setEllipsizeEndOp,
          RenderOp.setWidthOp
            (f64AsI32 (c.width - c.attr.padding.left - c.attr.padding.right) * pangoSCALE),
          RenderOp.setHeightOp
            (f64AsI32 (c.height - c.attr.padding.top - c.attr.padding.bottom) * pangoSCALE)]
      ++ (if c.stretch then [RenderOp.setAlignmentCenterOp] else [])
      ++ [RenderOp.setSourceRgbOp (c.attr.bg_color.getD Color.default).red
            (c.attr.bg_color.getD Color.default).green
            (c.attr.bg_color.getD Color.default).blue,
          RenderOp.rectangleOp 0 0 c.width c.height,
          RenderOp.fillOp,
          RenderOp.setSourceRgbOp c.attr.fg_color.red c.attr.fg_color.green
            c.attr.fg_color.blue,
          RenderOp.translateOp c.attr.padding.left c.attr.padding.top,
          RenderOp.showLayoutOp c.text])
  else .error .creationFailed

/-- Minimal cairo drawing semantics: a current translation, a current
source color, and the pending rectangle path. -/
structure CairoState where
  tx : ℚ
  ty : ℚ
  rgb : Color
  pending : Option (ℚ × ℚ × ℚ × ℚ)

/-- The initial cairo context state: origin translation, black source. -/
def CairoState.init : CairoState :=
  { tx := 0, ty := 0, rgb := Color.default, pending := none }

/-- What actually gets painted: filled rectangles and glyph runs, each in
device coordinates with the color in effect. -/
inductive PaintEvent where
  | rectFill (x y w h : ℚ) (color : Color)
  | glyphs (s : String) (x y : ℚ) (color : Color)
  deriving DecidableEq, Repr

/-- Interpret a render call sequence under the cairo semantics, returning
the paint events in order. -/
def interpretOps (st : CairoState) : List RenderOp → List PaintEvent
  | [] => []
  | op :: rest =>
    match op with
    | .translateOp dx dy =>
      interpretOps { st with tx := st.tx + dx, ty := st.ty + dy } rest
    | .setSourceRgbOp r g b =>
      interpretOps { st with rgb := { red := r, green := g, blue := b } } rest
    | .rectangleOp x y w h =>
      interpretOps { st with pending := some (st.tx + x, st.ty + y, w, h) } rest
    | .fillOp =>
      match st.pending with
      | some (x, y, w, h) =>
        .rectFill x y w h st.rgb :: interpretOps { st with pending := none } rest
      | none => interpretOps st rest
    | .showLayoutOp s => .glyphs s st.tx st.ty st.rgb :: interpretOps st rest
    | _ => interpretOps st rest


/-- Modelled from the spec: the total content width of the non-stretch
entries of a row (the row-layout pass lives in src/bar.rs, which is not
among the provided sources; spec section 4.4 step 3 describes it). -/
def nonStretchTotal (entries : List ComputedText) : ℚ :=
  ((entries.filter fun e => !e.stretch).map ComputedText.width).sum

/-- Modelled from the spec: the number of stretch entries in a row. -/
def stretchCount (entries : List ComputedText) : Nat :=
  (entries.filter fun e => e.stretch).length

/-- Modelled from the spec: the width assigned to each stretch entry —
the remaining horizontal space not consumed by non-stretch entries,
`max(0, surface_width − sum(non_stretch_widths))`, divided evenly among
the stretch entries. -/
def stretchEntryWidth (surfaceWidth : ℚ) (entries : List ComputedText) : ℚ :=
  if stretchCount entries = 0 then 0
  else max 0 (surfaceWidth - nonStretchTotal entries) / (stretchCount entries : ℚ)

/-- The width an entry ends up with in the packing pass: stretch entries
get the shared stretch width, non-stretch entries keep their measured
width. -/
def assignedWidth (w : ℚ) (e : ComputedText) : ℚ :=
  if e.stretch then w else e.width

/-- Modelled from the spec: the left-to-right packing loop — each entry
is placed at the running x offset and the offset advances by the width
assigned to it. -/
def layoutGo (w : ℚ) : ℚ → List ComputedText → List ComputedText
  | _, [] => []
  | acc, e :: rest =>
    { e with x := acc, width := assignedWidth w e }
      :: layoutGo w (acc + assignedWidth w e) rest

/-- Modelled from the spec: the row-layout packing pass over a surface of
the given width (spec section 4.4 step 3). -/
def layoutRow (surfaceWidth : ℚ) (entries : List ComputedText) : List ComputedText :=
  layoutGo (stretchEntryWidth surfaceWidth entries) 0 entries

/-- The external clock environment: chrono's formatting of a local time
instant with a format string, and the seconds component of the instant.
Instants are abstract (`Nat`-indexed). -/
structure TimeEnv where
  formatNow : String → Nat → String
  second : Nat → Nat

/-- The `Clock` widget's state: format string and attributes (the timer
handle is external and carries no data relevant to the emitted batches). -/
structure Clock where
  format : String
  attr : Attributes

/-- `Clock::new`. -/
def Clock.new (format : String) (attr : Attributes) : Clock :=
  { format := format, attr := attr }

/-- One step of the Clock widget's `stream::unfold` body: on timer expiry
at instant `now`, emit a batch of exactly one non-stretch Text with the
clock's attributes and the formatted current local time, and schedule
the next wake-up at the next minute boundary. -/
def Clock.tick (c : Clock) (env : TimeEnv) (now : Nat) : List Text × Nat :=
  ([{ attr := c.attr, text := env.formatNow c.format now, stretch := false }],
   60 - env.second now)

/-- The Clock widget's producer stream: the batch emitted at the n-th
wake-up, for a given infinite sequence of wake-up instants. -/
def Clock.batches (c : Clock) (env : TimeEnv) (times : Nat → Nat) (n : Nat) :
    List Text :=
  (c.tick env (times n)).1

/-- `measure` followed by `render`: compute a ComputedText from a Text
and then render it.  The ComputedText is passed to render immutably; the
pair returned exposes the ComputedText that render consumed. -/
def measureThenRender (t : Text) (env : PangoEnv) :
    Except LayoutCreationError (ComputedText × List RenderOp) :=
  match t.compute env with
  | .error e => .error e
  | .ok c =>
    match c.render env with
    | .error e => .error e
    | .ok ops => .ok (c, ops)

/-- Concrete attributes used by the witnesses. -/
def demoAttr : Attributes :=
  { font := Font.new "Noto Sans Mono",
    fg_color := { red := 1 / 4, green := 1 / 2, blue := 0 },
    bg_color := none,
    padding := Padding.new 5 5 0 0 }

/-- A concrete surface/font-engine environment: layout creation succeeds
and every string measures 50 by 12 pixels. -/
def demoEnv : PangoEnv :=
  { layoutOk := true, pixelSize := fun _ _ => (50, 12) }

/-- A concrete text request. -/
def demoText : Text := { attr := demoAttr, text := "LEFT", stretch := false }

/-- The measurement of `demoText` under `demoEnv`. -/
def demoComputed : ComputedText :=
  { attr := demoAttr, text := "LEFT", stretch := false,
    x := 0, y := 0, width := 60, height := 12 }

/-- The render call sequence of `demoComputed` under `demoEnv`. -/
def demoOps : List RenderOp :=
  [RenderOp.setTextOp "LEFT",
   RenderOp.setFontDescriptionOp (Font.new "Noto Sans Mono"),
   RenderOp.translateOp 0 0,
   RenderOp.setEllipsizeEndOp,
   RenderOp.setWidthOp 51200,
   RenderOp.setHeightOp 12288,
   RenderOp.setSourceRgbOp 0 0 0,
   RenderOp.rectangleOp 0 0 60 12,
   RenderOp.fillOp,
   RenderOp.setSourceRgbOp (1 / 4) (1 / 2) 0,
   RenderOp.translateOp 5 0,
   RenderOp.showLayoutOp "LEFT"]

/-- Fallback element for positional list access in statements. -/
def dummyComputed : ComputedText :=
  { attr := { font := Font.new "", fg_color := Color.default, bg_color := none,
              padding := Padding.new 0 0 0 0 },
    text := "", stretch := false, x := 0, y := 0, width := 0, height := 0 }

/-- A concrete row for the layout witness: a 50px non-stretch entry
followed by a stretch entry, as in the spec's end-to-end example. -/
def demoRowEntries : List ComputedText :=
  [{ attr := demoAttr, text := "LEFT", stretch := false,
     x := 0, y := 0, width := 50, height := 12 },
   { attr := demoAttr, text := "CENTER", stretch := true,
     x := 0, y := 0, width := 30, height := 12 }]

/-- A concrete clock environment: formatting echoes the format string and
every instant is at second 30. -/
def demoTimeEnv : TimeEnv :=
  { formatNow := fun f _ => f, second := fun _ => 30 }

theorem hexVal?_le {c : Char} {d : Nat} (h : hexVal? c = some d) : d ≤ 15 := by
  unfold hexVal? at h
  split_ifs at h with h1 h2 h3 <;> simp_all <;> omega

theorem hexVal?_plus : hexVal? '+' = none := by decide

theorem u8FromStrRadix16_pair {c0 c1 : Char} {d0 d1 : Nat}
    (h0 : hexVal? c0 = some d0) (h1 : hexVal? c1 = some d1) :
    u8FromStrRadix16 [c0, c1] = .ok (16 * d0 + d1) := by
  have hb0 : d0 ≤ 15 := hexVal?_le h0
  have hb1 : d1 ≤ 15 := hexVal?_le h1
  have hc0 : c0 ≠ '+' := by
    intro h
    rw [h, hexVal?_plus] at h0
    exact Option.noConfusion h0
  unfold u8FromStrRadix16
  rw [if_neg (by simp), if_neg (by simp)]
  split
  · next rest heq =>
    simp only [List.cons.injEq] at heq
    exact absurd heq.1 hc0
  simp only [hexDigitsToU8, h0, h1]
  rw [if_neg (by omega), if_neg (by omega)]
  congr 1
  ring

/-- C1: for every string of six hexadecimal digits, parsing as a Color
succeeds and sets each channel to the value of its 2-digit hex pair
divided by 256 exactly, red from characters 0-1, green from 2-3, blue
from 4-5. -/
theorem claimC1_color_parse_hex6 (c0 c1 c2 c3 c4 c5 : Char) (d0 d1 d2 d3 d4 d5 : Nat)
    (h0 : hexVal? c0 = some d0) (h1 : hexVal? c1 = some d1)
    (h2 : hexVal? c2 = some d2) (h3 : hexVal? c3 = some d3)
    (h4 : hexVal? c4 = some d4) (h5 : hexVal? c5 = some d5) :
    colorFromStr [c0, c1, c2, c3, c4, c5] =
      some (.ok { red := ((16 * d0 + d1 : ℕ) : ℚ) / 256,
                  green := ((16 * d2 + d3 : ℕ) : ℚ) / 256,
                  blue := ((16 * d4 + d5 : ℕ) : ℚ) / 256 }) := by
  have hr := u8FromStrRadix16_pair h0 h1
  have hg := u8FromStrRadix16_pair h2 h3
  have hb := u8FromStrRadix16_pair h4 h5
  have hs0 : sliceChars [c0, c1, c2, c3, c4, c5] 0 2 = [c0, c1] := rfl
  have hs2 : sliceChars [c0, c1, c2, c3, c4, c5] 2 4 = [c2, c3] := rfl
  have hs4 : sliceChars [c0, c1, c2, c3, c4, c5] 4 6 = [c4, c5] := rfl
  unfold colorFromStr
  rw [hs0, hs2, hs4, hr, hg, hb]
  simp

/-- Witness for C1 at the concrete input "ff8000". -/
theorem claimC1_color_parse_hex6_witness :
    colorFromStr ['f', 'f', '8', '0', '0', '0'] =
      some (.ok { red := ((16 * 15 + 15 : ℕ) : ℚ) / 256,
                  green := ((16 * 8 + 0 : ℕ) : ℚ) / 256,
                  blue := ((16 * 0 + 0 : ℕ) : ℚ) / 256 }) :=
  claimC1_color_parse_hex6 'f' 'f' '8' '0' '0' '0' 15 15 8 0 0 0
    (by decide) (by decide) (by decide) (by decide) (by decide) (by decide)

/-- C4 counterexample: in the input "+1+2+3" none of the three channel
substrings is valid 2-digit hexadecimal, yet parsing succeeds and
returns a full Color, because `u8::from_str_radix` accepts a leading
plus sign.  The claim says parsing must fail with an error tagged to the
offending channel. -/
theorem claimC4_counterexample :
    ¬ isValid2HexPair (sliceChars ['+', '1', '+', '2', '+', '3'] 0 2) ∧
    ¬ isValid2HexPair (sliceChars ['+', '1', '+', '2', '+', '3'] 2 4) ∧
    ¬ isValid2HexPair (sliceChars ['+', '1', '+', '2', '+', '3'] 4 6) ∧
    colorFromStr ['+', '1', '+', '2', '+', '3'] =
      some (.ok { red := 1 / 256, green := 2 / 256, blue := 3 / 256 }) := by
  exact ⟨by decide, by decide, by decide, rfl⟩

/-- C4 amended: over inputs of length at least 6, parsing succeeds if
and only if all three channel substrings are accepted by
`u8::from_str_radix` (two hex digits, or a plus sign followed by a hex
digit); otherwise it fails all-or-nothing with the error of the first
rejected channel in red, green, blue order, tagged to that channel and
carrying the underlying integer-parse failure. -/
theorem claimC4_error_channels (s : List Char) (h6 : 6 ≤ s.length) :
    ((∃ c, colorFromStr s = some (Except.ok c)) ↔
       exceptIsOk (u8FromStrRadix16 (sliceChars s 0 2)) = true ∧
       exceptIsOk (u8FromStrRadix16 (sliceChars s 2 4)) = true ∧
       exceptIsOk (u8FromStrRadix16 (sliceChars s 4 6)) = true) ∧
    (∀ e, u8FromStrRadix16 (sliceChars s 0 2) = .error e →
       colorFromStr s = some (.error (.red e))) ∧
    (∀ r e, u8FromStrRadix16 (sliceChars s 0 2) = .ok r →
       u8FromStrRadix16 (sliceChars s 2 4) = .error e →
       colorFromStr s = some (.error (.green e))) ∧
    (∀ r g e, u8FromStrRadix16 (sliceChars s 0 2) = .ok r →
       u8FromStrRadix16 (sliceChars s 2 4) = .ok g →
       u8FromStrRadix16 (sliceChars s 4 6) = .error e →
       colorFromStr s = some (.error (.blue e))) := by
  have n2 : ¬ s.length < 2 := by omega
  have n4 : ¬ s.length < 4 := by omega
  have n6 : ¬ s.length < 6 := by omega
  unfold colorFromStr
  rw [if_neg n2]
  cases hr : u8FromStrRadix16 (sliceChars s 0 2) with
  | error e => simp [exceptIsOk]
  | ok r =>
    cases hg : u8FromStrRadix16 (sliceChars s 2 4) with
    | error e => simp [exceptIsOk, n4]
    | ok g =>
      cases hb : u8FromStrRadix16 (sliceChars s 4 6) with
      | error e => simp [exceptIsOk, n4, n6]
      | ok b => simp [exceptIsOk, n4, n6]

/-- Witness for C4 amended at "zz8800": the red substring is rejected and
the parse fails tagged to red with the invalid-digit failure. -/
theorem claimC4_error_channels_witness :
    colorFromStr ['z', 'z', '8', '8', '0', '0'] =
      some (.error (.red .invalidDigit)) :=
  (claimC4_error_channels ['z', 'z', '8', '8', '0', '0'] (by decide)).2.1
    .invalidDigit (by decide)

/-- C9 counterexample: the input "zz" is shorter than 6 bytes, yet
from_str does not panic: the red channel parse fails first and a
ColorParseError is returned. -/
theorem claimC9_counterexample :
    (['z', 'z'] : List Char).length < 6 ∧
    colorFromStr ['z', 'z'] = some (.error (.red .invalidDigit)) := by
  exact ⟨by decide, by decide⟩

/-- C9 amended: from_str slices at byte ranges 0..2, 2..4, 4..6 as each
channel is reached, so it panics (modelled as `none`) exactly when the
input is too short for the next slice: always when shorter than 2
bytes, and when shorter than 4 (resp. 6) bytes only if the earlier
channels parsed successfully; an earlier channel's parse failure
returns a ColorParseError before the out-of-range slice is taken.
ASCII inputs of at least 6 bytes never panic. -/
theorem claimC9_panic_characterization (s : List Char) :
    (colorFromStr s = none ↔
       (s.length < 2 ∨
        (s.length < 4 ∧ exceptIsOk (u8FromStrRadix16 (sliceChars s 0 2)) = true) ∨
        (s.length < 6 ∧ exceptIsOk (u8FromStrRadix16 (sliceChars s 0 2)) = true ∧
         exceptIsOk (u8FromStrRadix16 (sliceChars s 2 4)) = true))) ∧
    (6 ≤ s.length → colorFromStr s ≠ none) := by
  constructor
  · unfold colorFromStr
    by_cases h2 : s.length < 2
    · simp [h2]
    rw [if_neg h2]
    cases hr : u8FromStrRadix16 (sliceChars s 0 2) with
    | error e => simp [exceptIsOk, h2]
    | ok r =>
      by_cases h4 : s.length < 4
      · simp [exceptIsOk, h2, h4]
      cases hg : u8FromStrRadix16 (sliceChars s 2 4) with
      | error e => simp [exceptIsOk, h2, h4]
      | ok g =>
        by_cases h6 : s.length < 6
        · simp [exceptIsOk, h2, h4, h6]
        cases hb : u8FromStrRadix16 (sliceChars s 4 6) with
        | error e => simp [exceptIsOk, h2, h4, h6]
        | ok b => simp [exceptIsOk, h2, h4, h6]
  · intro h6 hnone
    unfold colorFromStr at hnone
    rw [if_neg (show ¬ s.length < 2 by omega)] at hnone
    split at hnone
    · exact Option.noConfusion hnone
    · rw [if_neg (show ¬ s.length < 4 by omega)] at hnone
      split at hnone
      · exact Option.noConfusion hnone
      · rw [if_neg (show ¬ s.length < 6 by omega)] at hnone
        split at hnone
        · exact Option.noConfusion hnone
        · exact Option.noConfusion hnone

/-- Witness for C9 amended at "aabbcc": length at least 6, no panic. -/
theorem claimC9_panic_characterization_witness :
    colorFromStr ['a', 'a', 'b', 'b', 'c', 'c'] ≠ none :=
  (claimC9_panic_characterization ['a', 'a', 'b', 'b', 'c', 'c']).2 (by decide)

/-- Shared helper: everything `Text::compute` puts into a successful
result. -/
theorem compute_ok_fields {t : Text} {env : PangoEnv} {c : ComputedText}
    (h : t.compute env = .ok c) :
    c.attr = t.attr ∧ c.text = t.text ∧ c.stretch = t.stretch ∧
    c.x = 0 ∧ c.y = 0 ∧
    c.width = ((env.pixelSize t.text t.attr.font).1 : ℚ)
                + t.attr.padding.left + t.attr.padding.right ∧
    c.height = ((env.pixelSize t.text t.attr.font).2 : ℚ)
                 + t.attr.padding.top + t.attr.padding.bottom := by
  by_cases hl : env.layoutOk
  · rw [Text.compute, if_pos hl] at h
    injection h with h2
    subst h2
    exact ⟨rfl, rfl, rfl, rfl, rfl, rfl, rfl⟩
  · rw [Text.compute, if_neg hl] at h
    exact Except.noConfusion h

/-- Shared helper: the demo request measures to the demo ComputedText. -/
theorem demoCompute_eq : demoText.compute demoEnv = .ok demoComputed := by
  norm_num [Text.compute, demoText, demoEnv, demoComputed, demoAttr, Padding.new,
    Font.new]

/-- Shared helper: the demo ComputedText renders to the demo op list. -/
theorem demoRender_eq : demoComputed.render demoEnv = .ok demoOps := by
  norm_num [ComputedText.render, demoEnv, demoComputed, demoAttr, demoOps,
    Padding.new, Font.new, f64AsI32, pangoSCALE, Color.default]

/-- Shared helper: the demo measure-then-render pipeline. -/
theorem demoPipeline_eq :
    measureThenRender demoText demoEnv = .ok (demoComputed, demoOps) := by
  simp [measureThenRender, demoCompute_eq, demoRender_eq]

/-- C2: for every Text request and surface, a successful measure returns
a ComputedText positioned at the origin whose width is the font-engine
content width plus left and right padding and whose height is the
content height plus top and bottom padding. -/
theorem claimC2_compute_geometry (t : Text) (env : PangoEnv) (c : ComputedText)
    (h : t.compute env = .ok c) :
    c.x = 0 ∧ c.y = 0 ∧
    c.width = ((env.pixelSize t.text t.attr.font).1 : ℚ)
                + t.attr.padding.left + t.attr.padding.right ∧
    c.height = ((env.pixelSize t.text t.attr.font).2 : ℚ)
                 + t.attr.padding.top + t.attr.padding.bottom := by
  obtain ⟨-, -, -, hx, hy, hw, hh⟩ := compute_ok_fields h
  exact ⟨hx, hy, hw, hh⟩

/-- Witness for C2 at a concrete request and environment. -/
theorem claimC2_compute_geometry_witness :
    demoText.compute demoEnv = .ok demoComputed ∧
    (demoComputed.x = 0 ∧ demoComputed.y = 0 ∧
     demoComputed.width = ((demoEnv.pixelSize demoText.text demoText.attr.font).1 : ℚ)
                            + demoText.attr.padding.left + demoText.attr.padding.right ∧
     demoComputed.height = ((demoEnv.pixelSize demoText.text demoText.attr.font).2 : ℚ)
                             + demoText.attr.padding.top + demoText.attr.padding.bottom) :=
  ⟨demoCompute_eq, claimC2_compute_geometry demoText demoEnv demoComputed demoCompute_eq⟩

/-- C5: the Text-versus-ComputedText equality check holds exactly when
attributes, literal string and stretch flag agree, ignoring the geometry
fields; consequently a Text compares equal to its own measurement. -/
theorem claimC5_eq_ignores_geometry :
    (∀ (t : Text) (o : ComputedText),
       t.eqComputed o = true ↔
         (t.attr = o.attr ∧ t.text = o.text ∧ t.stretch = o.stretch)) ∧
    (∀ (t : Text) (env : PangoEnv) (c : ComputedText),
       t.compute env = .ok c → t.eqComputed c = true) := by
  constructor
  · intro t o
    simp [Text.eqComputed, and_assoc]
  · intro t env c h
    obtain ⟨ha, ht, hs, -, -, -, -⟩ := compute_ok_fields h
    simp [Text.eqComputed, ha, ht, hs]

/-- Witness for C5: the demo request compares equal to its measurement. -/
theorem claimC5_eq_ignores_geometry_witness :
    demoText.eqComputed demoComputed = true :=
  claimC5_eq_ignores_geometry.2 demoText demoEnv demoComputed demoCompute_eq

/-- C6: measure followed by render never changes the text, attr or
stretch fields — the ComputedText that render consumes carries them over
unchanged from the input Text (render takes it immutably; measure sets
only the geometry fields). -/
theorem claimC6_roundtrip_preserves_fields (t : Text) (env : PangoEnv)
    (c : ComputedText) (ops : List RenderOp)
    (h : measureThenRender t env = .ok (c, ops)) :
    c.text = t.text ∧ c.attr = t.attr ∧ c.stretch = t.stretch := by
  unfold measureThenRender at h
  split at h
  · exact Except.noConfusion h
  next c2 hc =>
    split at h
    · exact Except.noConfusion h
    next ops2 hr =>
      injection h with h2
      injection h2 with h3 h4
      subst h3
      obtain ⟨ha, ht, hs, -⟩ := compute_ok_fields hc
      exact ⟨ht, ha, hs⟩

/-- Witness for C6 at the concrete demo request. -/
theorem claimC6_roundtrip_preserves_fields_witness :
    demoComputed.text = demoText.text ∧ demoComputed.attr = demoText.attr ∧
    demoComputed.stretch = demoText.stretch :=
  claimC6_roundtrip_preserves_fields demoText demoEnv demoComputed demoOps demoPipeline_eq

/-- C7: under the cairo drawing semantics, render first fills a
background rectangle of size (width, height) at the translated (x, y)
offset, colored with the attributes' background color — black when it is
absent — and only then draws the foreground glyphs (at the padded
offset, in the foreground color). -/
theorem claimC7_render_background (c : ComputedText) (env : PangoEnv)
    (ops : List RenderOp) (h : c.render env = .ok ops) :
    interpretOps CairoState.init ops =
      [PaintEvent.rectFill c.x c.y c.width c.height
         (c.attr.bg_color.getD Color.default),
       PaintEvent.glyphs c.text (c.x + c.attr.padding.left)
         (c.y + c.attr.padding.top) c.attr.fg_color] ∧
    Color.default = { red := 0, green := 0, blue := 0 } := by
  by_cases hl : env.layoutOk
  · rw [ComputedText.render, if_pos hl] at h
    injection h with h2
    subst h2
    refine ⟨?_, rfl⟩
    obtain ⟨⟨f, fg, bg, ⟨pl, pr, pt, pb⟩⟩, s, str, x, y, w, ht⟩ := c
    by_cases hs : str
    all_goals simp [hs, interpretOps, CairoState.init]
  · rw [ComputedText.render, if_neg hl] at h
    exact Except.noConfusion h

/-- Witness for C7: the paint events of the demo render. -/
theorem claimC7_render_background_witness :
    interpretOps CairoState.init demoOps =
      [PaintEvent.rectFill demoComputed.x demoComputed.y demoComputed.width
         demoComputed.height (demoComputed.attr.bg_color.getD Color.default),
       PaintEvent.glyphs demoComputed.text
         (demoComputed.x + demoComputed.attr.padding.left)
         (demoComputed.y + demoComputed.attr.padding.top)
         demoComputed.attr.fg_color] :=
  (claimC7_render_background demoComputed demoEnv demoOps demoRender_eq).1

/-- C8: render constrains the pango layout to the padded content box —
width minus horizontal padding and height minus vertical padding, cast
to i32 and scaled by pango's SCALE — with end-ellipsizing, and sets
center alignment exactly when the stretch flag is true. -/
theorem claimC8_render_layout_constraints (c : ComputedText) (env : PangoEnv)
    (ops : List RenderOp) (h : c.render env = .ok ops) :
    RenderOp.setEllipsizeEndOp ∈ ops ∧
    RenderOp.setWidthOp
      (f64AsI32 (c.width - c.attr.padding.left - c.attr.padding.right)
        * pangoSCALE) ∈ ops ∧
    RenderOp.setHeightOp
      (f64AsI32 (c.height - c.attr.padding.top - c.attr.padding.bottom)
        * pangoSCALE) ∈ ops ∧
    (RenderOp.setAlignmentCenterOp ∈ ops ↔ c.stretch = true) := by
  by_cases hl : env.layoutOk
  · rw [ComputedText.render, if_pos hl] at h
    injection h with h2
    subst h2
    by_cases hs : c.stretch <;> simp [hs]
  · rw [ComputedText.render, if_neg hl] at h
    exact Except.noConfusion h

/-- Witness for C8 at the demo render: the demo request does not
stretch, so no center-alignment op is present. -/
theorem claimC8_render_layout_constraints_witness :
    RenderOp.setEllipsizeEndOp ∈ demoOps ∧
    RenderOp.setWidthOp
      (f64AsI32 (demoComputed.width - demoComputed.attr.padding.left
          - demoComputed.attr.padding.right) * pangoSCALE) ∈ demoOps ∧
    RenderOp.setHeightOp
      (f64AsI32 (demoComputed.height - demoComputed.attr.padding.top
          - demoComputed.attr.padding.bottom) * pangoSCALE) ∈ demoOps ∧
    (RenderOp.setAlignmentCenterOp ∈ demoOps ↔ demoComputed.stretch = true) :=
  claimC8_render_layout_constraints demoComputed demoEnv demoOps demoRender_eq

theorem layoutGo_length (w acc : ℚ) (l : List ComputedText) :
    (layoutGo w acc l).length = l.length := by
  induction l generalizing acc with
  | nil => rfl
  | cons e rest ih => simp [layoutGo, ih]

theorem layoutGo_getD (w : ℚ) (l : List ComputedText) (acc : ℚ) (i : Nat)
    (hi : i < l.length) (d : ComputedText) :
    (layoutGo w acc l).getD i d =
      { l.getD i d with
          x := acc + ((l.take i).map (assignedWidth w)).sum,
          width := assignedWidth w (l.getD i d) } := by
  induction l generalizing acc i with
  | nil => simp at hi
  | cons e rest ih =>
    cases i with
    | zero => simp [layoutGo]
    | succ j =>
      simp only [layoutGo, List.getD_cons_succ, List.take_succ_cons,
        List.map_cons, List.sum_cons]
      rw [ih (acc + assignedWidth w e) j (by simpa using hi)]
      simp [add_assoc]

/-- C3 (spec-modelled, the row-layout pass is in src/bar.rs which is not
among the provided sources): in a row with exactly one stretch entry
over a surface of width W, every entry is placed at an x-offset equal to
the cumulative sum of the widths assigned to the entries preceding it in
registration order; the stretch entry is assigned width
max(0, W − S) where S is the non-stretch total, and every non-stretch
entry keeps its measured width. -/
theorem claimC3_row_layout (W : ℚ) (entries : List ComputedText) (i : Nat)
    (hone : stretchCount entries = 1) (hi : i < entries.length) :
    (layoutRow W entries).length = entries.length ∧
    ((layoutRow W entries).getD i dummyComputed).x =
      ((entries.take i).map (assignedWidth (stretchEntryWidth W entries))).sum ∧
    ((layoutRow W entries).getD i dummyComputed).width =
      (if (entries.getD i dummyComputed).stretch
        then max 0 (W - nonStretchTotal entries)
        else (entries.getD i dummyComputed).width) := by
  have hsw : stretchEntryWidth W entries = max 0 (W - nonStretchTotal entries) := by
    unfold stretchEntryWidth
    rw [hone]
    simp
  refine ⟨layoutGo_length _ _ _, ?_, ?_⟩
  · rw [layoutRow, layoutGo_getD _ _ _ _ hi]
    simp
  · rw [layoutRow, layoutGo_getD _ _ _ _ hi]
    simp [assignedWidth, hsw]

/-- Witness for C3 at the spec's end-to-end example: a 50px non-stretch
entry and one stretch entry over a surface of width 200; the stretch
entry (index 1) sits at x = 50 with width 150. -/
theorem claimC3_row_layout_witness :
    (layoutRow 200 demoRowEntries).length = demoRowEntries.length ∧
    ((layoutRow 200 demoRowEntries).getD 1 dummyComputed).x =
      ((demoRowEntries.take 1).map
        (assignedWidth (stretchEntryWidth 200 demoRowEntries))).sum ∧
    ((layoutRow 200 demoRowEntries).getD 1 dummyComputed).width =
      (if (demoRowEntries.getD 1 dummyComputed).stretch
        then max 0 (200 - nonStretchTotal demoRowEntries)
        else (demoRowEntries.getD 1 dummyComputed).width) :=
  claimC3_row_layout 200 demoRowEntries 1 (by decide) (by decide)

/-- C10: every batch emitted by the Clock widget's producer stream is a
vector of exactly one Text whose stretch flag is false, whose attributes
are those the Clock was constructed with, and whose literal string is
the current local time formatted with the Clock's format string. -/
theorem claimC10_clock_batches (format : String) (attr : Attributes)
    (env : TimeEnv) (times : Nat → Nat) (n : Nat) :
    ((Clock.new format attr).batches env times n).length = 1 ∧
    ∀ t ∈ (Clock.new format attr).batches env times n,
      t.stretch = false ∧ t.attr = attr ∧
      t.text = env.formatNow format (times n) := by
  constructor
  · rfl
  · intro t htl
    simp only [Clock.batches, Clock.tick, Clock.new, List.mem_singleton] at htl
    subst htl
    exact ⟨rfl, rfl, rfl⟩

/-- Witness for C10 at a concrete clock, environment and wake-up. -/
theorem claimC10_clock_batches_witness :
    ({ attr := demoAttr, text := demoTimeEnv.formatNow "fmt" 7,
       stretch := false } : Text).stretch = false ∧
    ({ attr := demoAttr, text := demoTimeEnv.formatNow "fmt" 7,
       stretch := false } : Text).attr = demoAttr ∧
    ({ attr := demoAttr, text := demoTimeEnv.formatNow "fmt" 7,
       stretch := false } : Text).text = demoTimeEnv.formatNow "fmt" 7 :=
  (claimC10_clock_batches "fmt" demoAttr demoTimeEnv id 7).2 _
    (by simp [Clock.batches, Clock.tick, Clock.new])

end Cnx
